import Mathlib

/-!
Shallow embedding of the chain/session lifecycle, scheduler jobs, chat
gateway and escalation coordinator of the employee-wellness backend
(models/session.py, models/chain.py, models/chat.py, models/meet.py,
utils/scheduler.py, utils/chain_creation.py, routes/llm_chat.py,
routes/chat.py, routes/llm.py).

Conventions of the embedding:
- Times are integers counting minutes (one day = 1440, one hour = 60).
  Every place where the Python code reads the wall clock
  (datetime.now / datetime.utcnow) takes an explicit `now` parameter.
- The Mongo collections behind the beanie Documents are modelled as a
  record of lists (`DB`); `find_one` is `List.find?` in insertion order,
  `save` is a keyed replace-or-append (beanie save upserts).
- Outbound effects (emails) are recorded in the state; external services
  (the LLM backend, the report service) are modelled by explicit inputs
  describing their responses.
- Python exceptions and HTTPException are modelled with `Except String` /
  an `Option String` error component; the string is the message of the
  exception raised at that program point.  Uncaught runtime errors of the
  source (AttributeError on None, TypeError on a bad call, NameError,
  IndexError) are modelled as error results labelled with the Python
  error that the interpreter would raise there.
- `uuid`-generated identifiers are modelled by deterministic fresh names
  derived from the current collection size.
-/

namespace Backend

/-- One day in minutes. -/
def dayMin : Int := 1440

/-- One hour in minutes. -/
def hourMin : Int := 60

/-- models/session.py `SessionStatus`. -/
inductive SessionStatus where
  | pending
  | active
  | completed
  | cancelled
deriving Repr, DecidableEq

/-- models/chain.py `ChainStatus`. -/
inductive ChainStatus where
  | active
  | completed
  | escalated
  | cancelled
deriving Repr, DecidableEq

/-- models/meet.py `MeetStatus`. -/
inductive MeetStatus where
  | scheduled
  | in_progress
  | completed
  | cancelled
  | no_show
deriving Repr, DecidableEq

/-- models/chat.py `SenderType`. -/
inductive SenderType where
  | bot
  | emp
  | hr
deriving Repr, DecidableEq

/-- models/session.py `Session` document (the fields the lifecycle reads
or writes). -/
structure Session where
  session_id : String
  user_id : String
  chat_id : String
  status : SessionStatus
  scheduled_at : Int
  created_at : Int
  updated_at : Int
  completed_at : Option Int := none
  cancelled_at : Option Int := none
  cancelled_by : Option String := none
deriving Repr, DecidableEq

/-- models/chain.py `Chain` document. -/
structure Chain where
  chain_id : String
  employee_id : String
  session_ids : List String
  meet_id : Option String := none
  status : ChainStatus
  context : String := ""
  created_at : Int
  updated_at : Int
  completed_at : Option Int := none
  escalated_at : Option Int := none
  escalation_reason : Option String := none
  cancelled_at : Option Int := none
deriving Repr, DecidableEq

/-- models/meet.py `Meet` document. -/
structure Meet where
  meet_id : String
  user_id : String
  with_user_id : String
  scheduled_at : Int
  duration_minutes : Int
  status : MeetStatus := MeetStatus.scheduled
  meeting_link : Option String := none
  notes : Option String := none
deriving Repr, DecidableEq

/-- models/chat.py `Message`. -/
structure Message where
  sender_type : SenderType
  text : String
  timestamp : Int
deriving Repr, DecidableEq

/-- models/chat.py `Chat` document. -/
structure Chat where
  chat_id : String
  user_id : String
  messages : List Message := []
  created_at : Int
  updated_at : Int
deriving Repr, DecidableEq

/-- models/employee.py `Employee` (the fields the lifecycle reads). -/
structure Employee where
  employee_id : String
  name : String
  email : String
  manager_id : Option String := none
  meeting_link : Option String := none
deriving Repr, DecidableEq

/-- models/notification.py `Notification` (the fields the jobs read). -/
structure Notification where
  employee_id : String
  title : String
  description : String
  created_at : Int
deriving Repr, DecidableEq

/-- The email kinds sent by utils/utils.py helpers. -/
inductive EmailKind where
  | newSession
  | deadlineReminder
  | deadlineOver
  | escalation
deriving Repr, DecidableEq

/-- Record of one outbound email (utils/utils.py send helpers). -/
structure Email where
  to_email : String
  kind : EmailKind
deriving Repr, DecidableEq

/-- The persistent store: one list per Mongo collection. -/
structure DB where
  employees : List Employee := []
  chains : List Chain := []
  sessions : List Session := []
  chats : List Chat := []
  meets : List Meet := []
  notifications : List Notification := []
  emails : List Email := []
deriving Repr, DecidableEq

/-- Model of `Session.find_one({"session_id": sid})`. -/
def findSession (db : DB) (sid : String) : Option Session :=
  db.sessions.find? (fun s => s.session_id == sid)

/-- Model of `Chain.find_one({"chain_id": cid})`. -/
def findChain (db : DB) (cid : String) : Option Chain :=
  db.chains.find? (fun c => c.chain_id == cid)

/-- Model of `Employee.find_one({"employee_id": eid})`. -/
def findEmployee (db : DB) (eid : String) : Option Employee :=
  db.employees.find? (fun e => e.employee_id == eid)

/-- Model of `Chat.find_one({"chat_id": cid})`. -/
def findChat (db : DB) (cid : String) : Option Chat :=
  db.chats.find? (fun c => c.chat_id == cid)

/-- beanie `session.save()`: replace the documents with this id, insert
if absent. -/
def saveSession (db : DB) (s : Session) : DB :=
  if db.sessions.any (fun t => t.session_id == s.session_id) then
    { db with sessions :=
        db.sessions.map (fun t => if t.session_id = s.session_id then s else t) }
  else
    { db with sessions := db.sessions ++ [s] }

/-- beanie `chain.save()`: replace the documents with this id, insert if
absent. -/
def saveChain (db : DB) (c : Chain) : DB :=
  if db.chains.any (fun t => t.chain_id == c.chain_id) then
    { db with chains :=
        db.chains.map (fun t => if t.chain_id = c.chain_id then c else t) }
  else
    { db with chains := db.chains ++ [c] }

/-- beanie `chat.save()`: replace the documents with this id, insert if
absent. -/
def saveChat (db : DB) (c : Chat) : DB :=
  if db.chats.any (fun t => t.chat_id == c.chat_id) then
    { db with chats :=
        db.chats.map (fun t => if t.chat_id = c.chat_id then c else t) }
  else
    { db with chats := db.chats ++ [c] }

/-- utils/utils.py mail helpers: record the outbound email. -/
def sendMail (db : DB) (to_email : String) (kind : EmailKind) : DB :=
  { db with emails := db.emails ++ [{ to_email := to_email, kind := kind }] }

/-- Fresh `MEETxxxxxx` identifier (uuid modelled deterministically). -/
def freshMeetId (db : DB) : String :=
  "MEET" ++ toString db.meets.length

/-- Fresh `CHATxxxxxx` identifier (uuid modelled deterministically). -/
def freshChatId (db : DB) : String :=
  "CHAT" ++ toString db.chats.length

/-- Fresh `SESSxxxxxx` identifier (uuid modelled deterministically). -/
def freshSessionId (db : DB) : String :=
  "SESS" ++ toString db.sessions.length

/-- Model of `t.replace(hour=10, minute=0, second=0, microsecond=0)`: rewind to
the start of the day containing `t` (Python floor modulo) and move to
10:00. -/
def replaceHour10 (t : Int) : Int :=
  t - t % dayMin + 600

/-- Model of `(now + timedelta(days=1)).replace(hour=10, ...)`: tomorrow at 10:00,
used by chain.py, scheduler.py, llm_chat.py and chain_creation.py. -/
def nextDayAt10 (now : Int) : Int :=
  replaceHour10 (now + dayMin)

/-- session.py `Session.complete_session`. -/
def Session.complete_session (s : Session) (now : Int) : Except String Session :=
  if s.status ≠ SessionStatus.active then
    Except.error "Only active sessions can be completed"
  else
    Except.ok { s with
      status := SessionStatus.completed
      completed_at := some now
      updated_at := now }

/-- chain.py `Chain.add_session`: append-only, bumps `updated_at`. -/
def Chain.add_session (c : Chain) (sid : String) (now : Int) : Chain :=
  { c with session_ids := c.session_ids ++ [sid], updated_at := now }

/-- chain.py `Chain.update_context`. -/
def Chain.update_context (c : Chain) (ctx : String) (now : Int) : Chain :=
  { c with context := ctx, updated_at := now }

/-- Model of `Session.find({"session_id": {"$in": ids}})`: all stored sessions
whose id is in `ids`, in collection order. -/
def sessionsIn (db : DB) (ids : List String) : List Session :=
  db.sessions.filter (fun s => ids.contains s.session_id)

/-- The session loop of chain.py `Chain.complete_chain`: run
`complete_session` on each fetched session, saving as it goes; the first
failure propagates as the exception of the whole call, with the earlier
saves already persisted. -/
def completeSessionsLoop (now : Int) : DB → List Session → DB × Option String
  | db, [] => (db, none)
  | db, s :: rest =>
    match s.complete_session now with
    | Except.error e => (db, some e)
    | Except.ok s2 => completeSessionsLoop now (saveSession db s2) rest

/-- chain.py `Chain.complete_chain`. -/
def Chain.complete_chain (db : DB) (c : Chain) (now : Int) :
    DB × Except String Unit :=
  if c.status ≠ ChainStatus.active then
    (db, Except.error "Only active chains can be completed")
  else
    let c2 := { c with
      status := ChainStatus.completed
      completed_at := some now
      updated_at := now }
    match completeSessionsLoop now db (sessionsIn db c.session_ids) with
    | (db2, some e) => (db2, Except.error e)
    | (db2, none) => (saveChain db2 c2, Except.ok ())

/-- The session loop of chain.py `Chain.escalate_chain` (lines 112-115):
every fetched session has its status set to completed directly (no
lifecycle check) and is saved. -/
def forceCompleteSessions (db : DB) (ids : List String) : DB :=
  { db with sessions :=
      db.sessions.map (fun s =>
        if ids.contains s.session_id then { s with status := SessionStatus.completed }
        else s) }

/-- The HR lookup of chain.py `Chain.escalate_chain` (lines 122-125). -/
def lookupManager (db : DB) (e : Employee) : Option Employee :=
  match e.manager_id with
  | none => none
  | some mid => findEmployee db mid

/-- chain.py `Chain.escalate_chain`.  The pair carries the store as
mutated so far, so a raise in the middle leaves the earlier saves
visible, exactly as in the source (no transaction).  When the HR lookup
yields nothing, building the Meet dereferences `hr.employee_id` on None
and raises AttributeError before anything else is written. -/
def Chain.escalate_chain (db : DB) (c : Chain) (reason : String) (now : Int) :
    DB × Except String Unit :=
  if c.status ≠ ChainStatus.active then
    (db, Except.error "Only active chains can be escalated")
  else
    let db1 := forceCompleteSessions db c.session_ids
    match findEmployee db1 c.employee_id with
    | none => (db1, Except.error ("Employee with ID " ++ c.employee_id ++ " not found"))
    | some employee =>
      match lookupManager db1 employee with
      | none =>
        (db1, Except.error "AttributeError: NoneType object has no attribute employee_id")
      | some hr =>
        let meeting_time := nextDayAt10 now
        let new_meeting : Meet := {
          meet_id := freshMeetId db1
          user_id := hr.employee_id
          with_user_id := employee.employee_id
          scheduled_at := meeting_time
          duration_minutes := 30
          status := MeetStatus.scheduled
          meeting_link := hr.meeting_link
          notes := some reason }
        let db2 := { db1 with meets := db1.meets ++ [new_meeting] }
        let c2 := { c with
          status := ChainStatus.escalated
          completed_at := some now
          updated_at := now
          escalated_at := some now
          escalation_reason := some reason
          meet_id := some new_meeting.meet_id }
        let db3 := sendMail db2 employee.email EmailKind.escalation
        let db4 := sendMail db3 hr.email EmailKind.escalation
        (saveChain db4 c2, Except.ok ())

/-- End of a meeting: `scheduled_at + timedelta(minutes=duration_minutes)`. -/
def meetEnd (m : Meet) : Int :=
  m.scheduled_at + m.duration_minutes

/-- Stable insertion keeping earlier elements first among equal keys. -/
def insertMeet (m : Meet) : List Meet → List Meet
  | [] => [m]
  | x :: xs =>
    if x.scheduled_at ≤ m.scheduled_at then x :: insertMeet m xs
    else m :: x :: xs

/-- Model of `sorted(existing_meetings, key=lambda m: m.scheduled_at)` — a stable
sort by start time, as Python's `sorted`. -/
def sortMeets (ms : List Meet) : List Meet :=
  ms.foldl (fun acc m => insertMeet m acc) []

/-- The adjacent-pair gap scan written verbatim both in routes/chat.py
`assignTimeCalendar` (its dead lines 274-282) and in routes/llm.py
`escalate_chat` (lines 57-66, where it runs): the first adjacent pair
of the sorted list whose earlier
meeting ends at or after `earliest` and whose gap is at least `duration`
yields `max(current_meeting_end, earliest)`. -/
def findGap (earliest duration : Int) : List Meet → Option Int
  | [] => none
  | [_] => none
  | a :: b :: rest =>
    if meetEnd a ≥ earliest ∧ b.scheduled_at - meetEnd a ≥ duration then
      some (max (meetEnd a) earliest)
    else
      findGap earliest duration (b :: rest)

/-- routes/chat.py `assignTimeCalendar` as actually callable.  The
module imports `from datetime import timedelta, datetime`, so the
function's first statement `current_time = datetime.datetime.now()`
looks up a `datetime` attribute on the `datetime` class and raises
AttributeError: every call fails before any meeting is examined and the
function never returns a time.  The statements below that line are dead
code, modelled separately as `assignTimeCalendarBody`. -/
def assignTimeCalendar (_existing_meetings : List Meet) (_duration : Int) :
    Except String Int :=
  Except.error "AttributeError: type object datetime.datetime has no attribute datetime"

/-- The dead code of routes/chat.py `assignTimeCalendar` below its
crashing first line (lines 259-287), as a function of the `now` that
the clock read was meant to produce.  This greedy gap scan is not
reachable in chat.py, but the identical algorithm is inlined — with a
working clock read — in routes/llm.py `escalate_chat`. -/
def assignTimeCalendarBody (existing_meetings : List Meet) (duration : Int)
    (now : Int) : Int :=
  let earliest_start_time := now
  if existing_meetings.isEmpty then earliest_start_time
  else
    match sortMeets existing_meetings with
    | [] => earliest_start_time
    | first :: rest =>
      if first.scheduled_at - earliest_start_time ≥ duration then
        earliest_start_time
      else
        match findGap earliest_start_time duration (first :: rest) with
        | some t => t
        | none => max (meetEnd ((first :: rest).getLastD first)) earliest_start_time

/-- The adjacent pairs of a list, for the spec-side formulation of the
gap scan. -/
def gapPairs (l : List Meet) : List (Meet × Meet) :=
  l.zip l.tail

/-- Follows the words of the claim about the slot finder, for refinement
comparison: the slot finder is claimed to return times, and its first
inter-meeting gap of at least the duration counts regardless of whether
it starts before `earliest`, with its start clamped to `earliest`. -/
def slotFinderClaim (ms : List Meet) (duration now : Int) : Int :=
  if ms.isEmpty then now
  else
    match sortMeets ms with
    | [] => now
    | first :: rest =>
      if first.scheduled_at - now ≥ duration then now
      else
        match (gapPairs (first :: rest)).find?
            (fun p => p.2.scheduled_at - meetEnd p.1 ≥ duration) with
        | some p => max (meetEnd p.1) now
        | none => max (meetEnd ((first :: rest).getLastD first)) now

/-- The amended reading of the claim: as `slotFinderClaim`, but a gap
only qualifies when the meeting opening it ends at or after `earliest` —
stated through `List.find?` over adjacent pairs rather than through the
recursive scan of the code. -/
def slotFinderAmended (ms : List Meet) (duration now : Int) : Int :=
  if ms.isEmpty then now
  else
    match sortMeets ms with
    | [] => now
    | first :: rest =>
      if first.scheduled_at - now ≥ duration then now
      else
        match (gapPairs (first :: rest)).find?
            (fun p => meetEnd p.1 ≥ now ∧ p.2.scheduled_at - meetEnd p.1 ≥ duration) with
        | some p => max (meetEnd p.1) now
        | none => max (meetEnd ((first :: rest).getLastD first)) now

/-- routes/llm.py line 38: `480 if not request.timeDuartion else
request.timeDuartion` (Python truthiness: None and 0 both fall back to
480). -/
def durationOrDefault (timeDuartion : Option Int) : Int :=
  match timeDuartion with
  | none => 480
  | some d => if d = 0 then 480 else d

/-- The inline slot search of routes/llm.py `escalate_chat` (lines
36-72), written with the control flow of the source: `proposed_time`
starts unset, is set by the space-before-first check, then by the gap
loop, and finally defaults to after the last meeting. -/
def escalateChatSlot (existing_meetings : List Meet) (duration_minutes now : Int) :
    Int :=
  let earliest_start_time := now
  match sortMeets existing_meetings with
  | [] => earliest_start_time
  | first :: rest =>
    let afterFirstCheck : Option Int :=
      if first.scheduled_at - earliest_start_time ≥ duration_minutes then
        some earliest_start_time
      else none
    let afterGapLoop : Option Int :=
      match afterFirstCheck with
      | some t => some t
      | none => findGap earliest_start_time duration_minutes (first :: rest)
    match afterGapLoop with
    | some t => t
    | none => max (meetEnd ((first :: rest).getLastD first)) earliest_start_time

/-- Does an existing meeting conflict with a proposed slot `[t, t+dur)`?
(Interval overlap, for the spec-modelled probe below.) -/
def conflictsWith (t dur : Int) (m : Meet) : Bool :=
  decide (m.scheduled_at < t + dur) && decide (t < meetEnd m)

/-- Linear first-fit probe: advance the proposed time to the end of a
conflicting meeting until no conflict remains (fuel bounds the walk). -/
def probeForward (ms : List Meet) (dur : Int) : Nat → Int → Int
  | 0, t => t
  | Nat.succ fuel, t =>
    match ms.find? (conflictsWith t dur) with
    | none => t
    | some m => probeForward ms dur fuel (meetEnd m)

/-- Modelled from the spec: the slot search the spec attributes to the
chat-escalation path — propose `now` plus a jitter `r` of 2 to 3 hours
(120 ≤ r ≤ 180 minutes) and linearly probe forward through conflicting
meetings.  No such code exists in routes/llm.py; this definition follows
the spec's words for the refinement comparison. -/
def specJitterProbe (ms : List Meet) (dur now r : Int) : Int :=
  probeForward ms dur (ms.length + 1) (now + r)

/-- routes/llm.py `escalate_chat`: look up the session by chat id, the
employee, the manager's existing meetings, compute the slot with the
inline greedy search, and save a new Meet at that slot.  A missing
manager id would make the Meet constructor fail validation
(`with_user_id` must be a string). -/
def escalate_chat (db : DB) (chatId : String) (timeDuartion : Option Int)
    (now : Int) : DB × Except String Unit :=
  match db.sessions.find? (fun s => s.chat_id == chatId) with
  | none => (db, Except.error "Given chatId doesnt exist")
  | some chat_det =>
    match findEmployee db chat_det.user_id with
    | none => (db, Except.error "Given employee doesnt exist")
    | some user =>
      match user.manager_id with
      | none => (db, Except.error "ValidationError: with_user_id must be a string")
      | some manager_id =>
        let existing_meetings := db.meets.filter (fun m => m.with_user_id == manager_id)
        let duration_minutes := durationOrDefault timeDuartion
        let proposed_time := escalateChatSlot existing_meetings duration_minutes now
        let new_meet : Meet := {
          meet_id := freshMeetId db
          user_id := user.employee_id
          with_user_id := manager_id
          scheduled_at := proposed_time
          duration_minutes := duration_minutes
          status := MeetStatus.scheduled }
        ({ db with meets := db.meets ++ [new_meet] }, Except.ok ())

/-- A job loop over records: run the per-record step left to right; the
first exception aborts the run (the scheduler jobs wrap their body in a
try that re-raises). -/
def jobLoop {α : Type} (step : DB → α → DB × Option String) :
    DB → List α → DB × Option String
  | db, [] => (db, none)
  | db, x :: rest =>
    match step db x with
    | (db2, some e) => (db2, some e)
    | (db2, none) => jobLoop step db2 rest

/-- The reason string used by scheduler.py when escalating on deadline. -/
def deadlineReason : String :=
  "Chain escalated because the employee didnt complete the session within the deadline"

/-- The body of the pending-session loop of scheduler.py
`run_deadline_check` (lines 209-222).  The branch order of the source is
kept: the more-than-one-day branch is tested first, so the
more-than-two-days `elif` can only fire when the first test failed; were
it ever reached it would raise NameError, because `employee` is only
bound inside the first branch. -/
def deadlinePendingStep (now : Int) (db : DB) (s : Session) : DB × Option String :=
  if s.scheduled_at < now - dayMin then
    match findEmployee db s.user_id with
    | none => (db, some "AttributeError: NoneType object has no attribute email")
    | some employee => (sendMail db employee.email EmailKind.deadlineReminder, none)
  else if s.scheduled_at < now - 2 * dayMin then
    (db, some "NameError: name employee is not defined")
  else
    (db, none)

/-- The body of the active-session loop of scheduler.py
`run_deadline_check` (lines 228-247), with the same branch order as the
source: reminder when overdue by more than one day, dead `continue`
branch, and otherwise the last-message grace check followed by
escalation of the owning chain. -/
def deadlineActiveStep (now : Int) (db : DB) (s : Session) : DB × Option String :=
  if s.scheduled_at < now - dayMin then
    match findEmployee db s.user_id with
    | none => (db, some "AttributeError: NoneType object has no attribute email")
    | some employee => (sendMail db employee.email EmailKind.deadlineReminder, none)
  else if s.scheduled_at < now - 2 * dayMin then
    (db, none)
  else
    match (db.chats.filter (fun c => c.chat_id == s.chat_id)).getLast? with
    | none => (db, some "IndexError: list index out of range")
    | some chat =>
      match chat.messages.getLast? with
      | none => (db, some "IndexError: list index out of range")
      | some last_message =>
        if last_message.timestamp > s.scheduled_at + 2 * dayMin - hourMin then
          (db, none)
        else
          match db.chains.find? (fun c => c.session_ids.contains s.session_id) with
          | none => (db, none)
          | some chain =>
            match Chain.escalate_chain db chain deadlineReason now with
            | (db2, Except.error e) => (db2, some e)
            | (db2, Except.ok _) => (db2, none)

/-- scheduler.py `run_deadline_check`: the pending-session pass over
sessions with `status=PENDING` and `scheduled_at <= now`, then the
active-session pass over sessions with `status=ACTIVE` (queried after
the first pass). -/
def run_deadline_check (db : DB) (now : Int) : DB × Option String :=
  let pending_sessions := db.sessions.filter
    (fun s => s.status == SessionStatus.pending && s.scheduled_at ≤ now)
  match jobLoop (deadlinePendingStep now) db pending_sessions with
  | (db1, some e) => (db1, some e)
  | (db1, none) =>
    let active_sessions := db1.sessions.filter
      (fun s => s.status == SessionStatus.active)
    jobLoop (deadlineActiveStep now) db1 active_sessions

/-- The per-candidate body of scheduler.py `run_employee_selection`
(lines 171-189).  A candidate with an ACTIVE chain is skipped; otherwise
the first stored chain of the candidate is fetched with no status
filter, and a candidate with no chain at all makes
`chain.session_ids[-1]` dereference None (AttributeError).  A candidate
whose last chain session was created within the 14-day cooldown is
skipped.  The remaining candidates reach the
`create_chain(employee_id=..., notes=..., scheduled_time=...)` call,
which raises TypeError: utils/chain_creation.py defines
`create_chain(request: CreateChainRequest)` with a single positional
parameter. -/
def selectionStep (now : Int) (db : DB) (employee_id : String) : DB × Option String :=
  match db.chains.find?
      (fun c => c.employee_id == employee_id && c.status == ChainStatus.active) with
  | some _ => (db, none)
  | none =>
    match db.chains.find? (fun c => c.employee_id == employee_id) with
    | none => (db, some "AttributeError: NoneType object has no attribute session_ids")
    | some chain =>
      match chain.session_ids.getLast? with
      | none => (db, some "IndexError: list index out of range")
      | some last_id =>
        match findSession db last_id with
        | none => (db, some "AttributeError: NoneType object has no attribute created_at")
        | some last_session =>
          if last_session.created_at > now - 14 * dayMin then
            (db, none)
          else
            (db, some "TypeError: create_chain got an unexpected keyword argument employee_id")

/-- scheduler.py `run_employee_selection`, from the point where the
anomaly-detection black box has produced `selected_employees`: iterate
the per-candidate step; the first exception aborts the job run (the body
is wrapped in a try that logs and re-raises). -/
def run_employee_selection (db : DB) (selected_employees : List String)
    (now : Int) : DB × Option String :=
  jobLoop (selectionStep now) db selected_employees

/-- The responses of the external report and chat services consumed by
routes/llm_chat.py `initiate_chat`: whether `GET /report/report-exists`
returns true, whether `POST /report/analyze` succeeds, and the opening
message returned by `POST /chatbot/start_session` (none = the call
failed). -/
structure LLMEnv where
  report_exists : Bool
  analyze_ok : Bool
  start_message : Option String
deriving Repr, DecidableEq

/-- chat.py model `Chat.add_message` as used from the routes: append and
save. -/
def addChatMessage (db : DB) (c : Chat) (sender : SenderType) (text : String)
    (now : Int) : DB :=
  saveChat db { c with
    messages := c.messages ++ [{ sender_type := sender, text := text, timestamp := now }]
    updated_at := now }

/-- routes/llm_chat.py `initiate_chat` (lines 198-280): guards in source
order — chat found, ownership, session found, session PENDING, then the
scheduled-time gate `if scheduled_time < datetime.now(timezone.utc)`
which rejects exactly when the scheduled time lies in the past — then
chain found, the external report check, the external start call, and on
its success the session is set ACTIVE, saved, and the opening bot
message appended. -/
def initiate_chat (db : DB) (chatId : String) (employee : Employee)
    (env : LLMEnv) (now : Int) : DB × Except String Unit :=
  match findChat db chatId with
  | none => (db, Except.error "Chat not found")
  | some chat =>
    if chat.user_id ≠ employee.employee_id then
      (db, Except.error "Not authorized to access this chat")
    else
      match db.sessions.find? (fun s => s.chat_id == chat.chat_id) with
      | none => (db, Except.error "Associated session not found")
      | some session =>
        if session.status ≠ SessionStatus.pending then
          (db, Except.error "Session is not pending")
        else if session.scheduled_at < now then
          (db, Except.error "Please start the session at the scheduled time")
        else
          match db.chains.find? (fun c => c.session_ids.contains session.session_id) with
          | none => (db, Except.error "Associated chain not found")
          | some _chain =>
            if !env.report_exists && !env.analyze_ok then
              (db, Except.error "exception occurred while analyzing employee report")
            else
              match env.start_message with
              | none => (db, Except.error "chatbot start_session call failed")
              | some bot_response =>
                let session2 := { session with
                  status := SessionStatus.active, updated_at := session.updated_at }
                let db2 := saveSession db session2
                (addChatMessage db2 chat SenderType.bot bot_response now, Except.ok ())

/-- Insertion of a newly constructed chat document
(`await new_chat.save()` on a fresh chat). -/
def appendChat (db : DB) (c : Chat) : DB :=
  { db with chats := db.chats ++ [c] }

/-- Insertion of a newly constructed session document
(`await new_session.save()` on a fresh session). -/
def appendSession (db : DB) (s : Session) : DB :=
  { db with sessions := db.sessions ++ [s] }

/-- Insertion of a newly constructed notification document. -/
def appendNotification (db : DB) (n : Notification) : DB :=
  { db with notifications := db.notifications ++ [n] }

/-- Message count used by routes/llm_chat.py `end_session` (line 412):
`len([msg for msg in chat.messages if msg.sender_type != SenderType.BOT])`
— every message not authored by the bot, HR messages included. -/
def nonBotCount (chat : Chat) : Nat :=
  (chat.messages.filter (fun m => m.sender_type != SenderType.bot)).length

/-- The count named by the claim: messages authored by the employee. -/
def employeeAuthoredCount (chat : Chat) : Nat :=
  (chat.messages.filter (fun m => m.sender_type == SenderType.emp)).length

/-- routes/llm_chat.py `end_session` (lines 383-489).  `llmContext` is
the `updated_context` field of the external `POST /chatbot/end_session`
response (none = absent or falsy).  On the success path: the chain
context is updated and saved, the current session is completed (its
lifecycle method — raising if the session is not ACTIVE, after the
context save), a fresh chat and a fresh pending session scheduled for
tomorrow 10:00 are inserted, the session is appended to the chain, and a
notification is stored. -/
def end_session (db : DB) (chatId : String) (employee : Employee)
    (llmContext : Option String) (now : Int) : DB × Except String Unit :=
  match findChat db chatId with
  | none => (db, Except.error "Chat not found")
  | some chat =>
    if chat.user_id ≠ employee.employee_id then
      (db, Except.error "Not authorized to access this chat")
    else
      match db.sessions.find? (fun s => s.chat_id == chat.chat_id) with
      | none => (db, Except.error "Associated session not found")
      | some session =>
        match db.chains.find? (fun c => c.session_ids.contains session.session_id) with
        | none => (db, Except.error "Chain not found")
        | some chain =>
          if nonBotCount chat < 10 then
            (db, Except.error "Cannot end the chat as the employee has not sent more than 10 messages")
          else
            match llmContext with
            | none => (db, Except.error "No updated context received from LLM")
            | some updated_context =>
              let new_chat_id := freshChatId db
              let new_session_id := freshSessionId db
              let chain2 := chain.update_context updated_context now
              let db2 := saveChain db chain2
              match session.complete_session now with
              | Except.error e => (db2, Except.error e)
              | Except.ok session2 =>
                let db3 := saveSession db2 session2
                let scheduled_time := nextDayAt10 now
                let new_chat : Chat := {
                  chat_id := new_chat_id
                  user_id := employee.employee_id
                  created_at := now
                  updated_at := now }
                let db4 := appendChat db3 new_chat
                let new_session : Session := {
                  session_id := new_session_id
                  user_id := employee.employee_id
                  chat_id := new_chat.chat_id
                  status := SessionStatus.pending
                  scheduled_at := scheduled_time
                  created_at := now
                  updated_at := now }
                let db5 := appendSession db4 new_session
                let chain3 := chain2.add_session new_session.session_id now
                let db6 := saveChain db5 chain3
                let notif : Notification := {
                  employee_id := employee.employee_id
                  title := "Next Support Session Scheduled"
                  description := "Your next support session has been scheduled."
                  created_at := now }
                (appendNotification db6 notif, Except.ok ())

instance {ε α : Type} [DecidableEq ε] [DecidableEq α] : DecidableEq (Except ε α) := fun x y =>
  match x, y with
  | Except.ok a, Except.ok b =>
    if h : a = b then Decidable.isTrue (congrArg Except.ok h)
    else Decidable.isFalse (fun hc => h (Except.ok.inj hc))
  | Except.error a, Except.error b =>
    if h : a = b then Decidable.isTrue (congrArg Except.error h)
    else Decidable.isFalse (fun hc => h (Except.error.inj hc))
  | Except.ok _, Except.error _ => Decidable.isFalse (fun hc => Except.noConfusion hc)
  | Except.error _, Except.ok _ => Decidable.isFalse (fun hc => Except.noConfusion hc)

/-- Test fixture: an employee whose manager is EMP0009. -/
def empE : Employee :=
  { employee_id := "EMP0001", name := "Emp One", email := "e1"
    manager_id := some "EMP0009" }

/-- Test fixture: the HR manager of EMP0001. -/
def empH : Employee :=
  { employee_id := "EMP0009", name := "Hr Nine", email := "h9"
    meeting_link := some "link9" }

/-- Test fixture for the deadline job: a PENDING session scheduled at
time 0. -/
def sessC1 : Session :=
  { session_id := "S1", user_id := "EMP0001", chat_id := "CHAT1"
    status := SessionStatus.pending, scheduled_at := 0
    created_at := 0, updated_at := 0 }

/-- Test fixture: the ACTIVE chain owning session S1. -/
def chainC1 : Chain :=
  { chain_id := "CH1", employee_id := "EMP0001", session_ids := ["S1"]
    status := ChainStatus.active, created_at := 0, updated_at := 0 }

/-- Test fixture: store for the deadline-check run. -/
def dbC1 : DB :=
  { employees := [empE, empH], chains := [chainC1], sessions := [sessC1] }

/-- C1.  The deadline-check job never reaches its final-notice/escalation
branch.  On a PENDING session overdue by three days (scheduled at 0, run
at 4320 = 3 days) the run ends cleanly having sent only a reminder email
and leaving every chain untouched — although the claim requires a
final-notice email and an escalation of the owning chain once a session
is overdue by more than two days.  The last conjunct shows why: the
source tests the more-than-one-day condition first, so the
more-than-two-days `elif` guard can never be true when it is evaluated. -/
theorem C1_deadline_check_never_escalates :
    (run_deadline_check dbC1 4320).2 = none ∧
    (run_deadline_check dbC1 4320).1.emails =
      [{ to_email := "e1", kind := EmailKind.deadlineReminder }] ∧
    (run_deadline_check dbC1 4320).1.chains = [chainC1] ∧
    (∀ sch now : Int,
      (decide (sch < now - 2 * dayMin) && !decide (sch < now - dayMin)) = false) := by
  refine ⟨by decide, by decide, by decide, ?_⟩
  intro sch now
  by_cases h : sch < now - dayMin
  · simp [h]
  · have h2 : ¬ sch < now - 2 * dayMin := by
      simp only [dayMin] at h ⊢
      omega
    simp [h, h2]

/-- Test fixture: the chat of session S1. -/
def chatC2 : Chat :=
  { chat_id := "CHAT1", user_id := "EMP0001", created_at := 0, updated_at := 0 }

/-- Test fixture: a PENDING session scheduled at time 100. -/
def sessC2 : Session :=
  { session_id := "S1", user_id := "EMP0001", chat_id := "CHAT1"
    status := SessionStatus.pending, scheduled_at := 100
    created_at := 0, updated_at := 0 }

/-- Test fixture: the ACTIVE chain owning session S1. -/
def chainC2 : Chain :=
  { chain_id := "CH1", employee_id := "EMP0001", session_ids := ["S1"]
    status := ChainStatus.active, created_at := 0, updated_at := 0 }

/-- Test fixture: store for initiate-chat runs. -/
def dbC2 : DB :=
  { employees := [empE, empH], chains := [chainC2], sessions := [sessC2]
    chats := [chatC2] }

/-- Test fixture: an external environment in which every outbound call
succeeds. -/
def okEnv : LLMEnv :=
  { report_exists := true, analyze_ok := true, start_message := some "Good morning" }

/-- C2.  The scheduled-time gate of `initiate_chat` is inverted.  On a
PENDING session scheduled at time 100, a call at time 200 — at/after
`scheduled_at`, which the claim requires to succeed — is rejected with
the invalid-state message and changes nothing, while a call at time 50 —
before `scheduled_at`, which the claim requires to fail — succeeds and
moves the session to ACTIVE. -/
theorem C2_initiate_chat_rejects_after_scheduled_time :
    (initiate_chat dbC2 "CHAT1" empE okEnv 200).2 =
      Except.error "Please start the session at the scheduled time" ∧
    (initiate_chat dbC2 "CHAT1" empE okEnv 200).1 = dbC2 ∧
    (initiate_chat dbC2 "CHAT1" empE okEnv 50).2 = Except.ok () ∧
    (findSession (initiate_chat dbC2 "CHAT1" empE okEnv 50).1 "S1").map Session.status =
      some SessionStatus.active := by
  refine ⟨by decide, by decide, by decide, by decide⟩

/-- Test fixture: a store whose only record is employee EMP0001, with no
chain at all. -/
def dbC4a : DB := { employees := [empE, empH] }

/-- Test fixture: an old completed session, created at time 0. -/
def sessC4 : Session :=
  { session_id := "S0", user_id := "EMP0001", chat_id := "CHAT0"
    status := SessionStatus.completed, scheduled_at := 0
    created_at := 0, updated_at := 0 }

/-- Test fixture: an old COMPLETED chain of EMP0001. -/
def chainC4 : Chain :=
  { chain_id := "CH0", employee_id := "EMP0001", session_ids := ["S0"]
    status := ChainStatus.completed, created_at := 0, updated_at := 0 }

/-- Test fixture: store with only the old chain of EMP0001. -/
def dbC4b : DB :=
  { employees := [empE, empH], chains := [chainC4], sessions := [sessC4] }

/-- C4.  The selection job cannot open a chain for any remaining
candidate.  A nominated employee with no prior chain at all makes the
job dereference None (`chain.session_ids` on the result of an unguarded
`find_one`) and abort; and even a candidate far past the 14-day cooldown
(last session created at 0, job run at 30240 = day 21) aborts, because
the job calls `create_chain` with keyword arguments that its single
`request` parameter does not accept.  In both runs no chain is opened
and the store is returned unchanged. -/
theorem C4_selection_job_crashes_without_prior_chain :
    run_employee_selection dbC4a ["EMP0001"] 0 =
      (dbC4a, some "AttributeError: NoneType object has no attribute session_ids") ∧
    run_employee_selection dbC4b ["EMP0001"] 30240 =
      (dbC4b, some "TypeError: create_chain got an unexpected keyword argument employee_id") := by
  refine ⟨by decide, by decide⟩

/-- Employee lookups read only the employees collection, which the
session loop of `escalate_chain` does not touch. -/
theorem findEmployee_forceComplete (db : DB) (ids : List String) (eid : String) :
    findEmployee (forceCompleteSessions db ids) eid = findEmployee db eid := rfl

/-- Manager lookup is likewise unaffected by the session loop. -/
theorem lookupManager_forceComplete (db : DB) (ids : List String) (e : Employee) :
    lookupManager (forceCompleteSessions db ids) e = lookupManager db e := rfl

/-- After the session loop of `escalate_chain`, every stored session
referenced by the chain is COMPLETED. -/
theorem sessionsIn_forceComplete_completed (db : DB) (ids : List String) :
    ∀ s ∈ sessionsIn (forceCompleteSessions db ids) ids,
      s.status = SessionStatus.completed := by
  intro s hs
  rw [sessionsIn, List.mem_filter] at hs
  obtain ⟨hmem, hp⟩ := hs
  rw [forceCompleteSessions] at hmem
  simp only [List.mem_map] at hmem
  obtain ⟨t, _, hft⟩ := hmem
  by_cases h : ids.contains t.session_id
  · rw [if_pos h] at hft
    rw [← hft]
  · rw [if_neg h] at hft
    subst hft
    rw [hp] at h
    exact absurd rfl h

/-- C10.  When the chain's employee has no manager, or the manager
record is absent (`lookupManager` yields nothing), `escalate_chain` on
an ACTIVE chain raises the AttributeError of the `hr.employee_id`
access, and the failure is not atomic: every stored session referenced
by the chain has already been persisted as COMPLETED, while the chain
document was never saved — it is still stored unchanged (hence ACTIVE,
with its original empty meet id and escalation reason) — and no meeting
or email was produced. -/
theorem C10_escalate_chain_partial_failure
    (db : DB) (c : Chain) (emp : Employee) (reason : String) (now : Int)
    (hstatus : c.status = ChainStatus.active)
    (hchain : findChain db c.chain_id = some c)
    (hemp : findEmployee db c.employee_id = some emp)
    (hmgr : lookupManager db emp = none) :
    (Chain.escalate_chain db c reason now).2 =
      Except.error "AttributeError: NoneType object has no attribute employee_id" ∧
    (∀ s ∈ sessionsIn (Chain.escalate_chain db c reason now).1 c.session_ids,
      s.status = SessionStatus.completed) ∧
    findChain (Chain.escalate_chain db c reason now).1 c.chain_id = some c ∧
    (Chain.escalate_chain db c reason now).1.meets = db.meets ∧
    (Chain.escalate_chain db c reason now).1.emails = db.emails := by
  have hred : Chain.escalate_chain db c reason now =
      (forceCompleteSessions db c.session_ids,
       Except.error "AttributeError: NoneType object has no attribute employee_id") := by
    rw [Chain.escalate_chain, if_neg (by simp [hstatus])]
    simp only [findEmployee_forceComplete, hemp, lookupManager_forceComplete, hmgr]
  rw [hred]
  exact ⟨rfl, sessionsIn_forceComplete_completed db c.session_ids, hchain, rfl, rfl⟩

/-- Test fixture: an employee with no manager assigned. -/
def empN : Employee :=
  { employee_id := "EMP0002", name := "No Mgr", email := "e2" }

/-- Test fixture: a PENDING session of the manager-less employee. -/
def sessC10 : Session :=
  { session_id := "S9", user_id := "EMP0002", chat_id := "CHAT9"
    status := SessionStatus.pending, scheduled_at := 0
    created_at := 0, updated_at := 0 }

/-- Test fixture: the ACTIVE chain of the manager-less employee. -/
def chainC10 : Chain :=
  { chain_id := "CH9", employee_id := "EMP0002", session_ids := ["S9"]
    status := ChainStatus.active, created_at := 0, updated_at := 0 }

/-- Test fixture: store for the partial-failure scenario. -/
def dbC10 : DB :=
  { employees := [empN], chains := [chainC10], sessions := [sessC10] }

/-- Witness for C10 at a concrete store. -/
theorem C10_escalate_chain_partial_failure_witness :
    chainC10.status = ChainStatus.active ∧
    findChain dbC10 chainC10.chain_id = some chainC10 ∧
    findEmployee dbC10 chainC10.employee_id = some empN ∧
    lookupManager dbC10 empN = none ∧
    ((Chain.escalate_chain dbC10 chainC10 "overdue" 5).2 =
        Except.error "AttributeError: NoneType object has no attribute employee_id" ∧
      (∀ s ∈ sessionsIn (Chain.escalate_chain dbC10 chainC10 "overdue" 5).1
          chainC10.session_ids, s.status = SessionStatus.completed) ∧
      findChain (Chain.escalate_chain dbC10 chainC10 "overdue" 5).1 chainC10.chain_id =
        some chainC10 ∧
      (Chain.escalate_chain dbC10 chainC10 "overdue" 5).1.meets = dbC10.meets ∧
      (Chain.escalate_chain dbC10 chainC10 "overdue" 5).1.emails = dbC10.emails) :=
  ⟨by decide, by decide, by decide, by decide,
   C10_escalate_chain_partial_failure dbC10 chainC10 empN "overdue" 5
     (by decide) (by decide) (by decide) (by decide)⟩

/-- A successful `find?` implies `any` for the same predicate. -/
theorem any_of_find? {α : Type} {p : α → Bool} {l : List α} {a : α}
    (h : l.find? p = some a) : l.any p = true :=
  List.any_eq_true.mpr ⟨a, List.mem_of_find?_eq_some h, List.find?_some h⟩

/-- Keyed replacement in a chain list: if lookup by id found `c`, lookup
after replacing every entry with that id by `c2` (where `c2` carries the
id) finds `c2`. -/
theorem find_replaceChain (l : List Chain) (cid : String) (c c2 : Chain)
    (h : l.find? (fun t => t.chain_id == cid) = some c) (h2 : c2.chain_id = cid) :
    (l.map (fun t => if t.chain_id = c2.chain_id then c2 else t)).find?
      (fun t => t.chain_id == cid) = some c2 := by
  induction l with
  | nil => simp at h
  | cons a rest ih =>
    by_cases ha : a.chain_id = cid
    · simp [ha, h2]
    · rw [List.find?_cons_of_neg _ (by simp [ha])] at h
      simp only [List.map_cons]
      rw [if_neg (by rw [h2]; exact ha)]
      rw [List.find?_cons_of_neg _ (by simp [ha])]
      exact ih h

/-- Keyed replacement in a session list, as `find_replaceChain`. -/
theorem find_replaceSession (l : List Session) (sid : String) (s s2 : Session)
    (h : l.find? (fun t => t.session_id == sid) = some s) (h2 : s2.session_id = sid) :
    (l.map (fun t => if t.session_id = s2.session_id then s2 else t)).find?
      (fun t => t.session_id == sid) = some s2 := by
  induction l with
  | nil => simp at h
  | cons a rest ih =>
    by_cases ha : a.session_id = sid
    · simp [ha, h2]
    · rw [List.find?_cons_of_neg _ (by simp [ha])] at h
      simp only [List.map_cons]
      rw [if_neg (by rw [h2]; exact ha)]
      rw [List.find?_cons_of_neg _ (by simp [ha])]
      exact ih h

/-- Saving a chain whose id is already stored updates the lookup. -/
theorem findChain_saveChain (db : DB) (c2 c : Chain)
    (h : findChain db c2.chain_id = some c) :
    findChain (saveChain db c2) c2.chain_id = some c2 := by
  rw [findChain] at h
  rw [saveChain, if_pos (any_of_find? h), findChain]
  exact find_replaceChain db.chains c2.chain_id c c2 h rfl

/-- Saving a session whose id is already stored updates the lookup. -/
theorem findSession_saveSession (db : DB) (s2 s : Session)
    (h : findSession db s2.session_id = some s) :
    findSession (saveSession db s2) s2.session_id = some s2 := by
  rw [findSession] at h
  rw [saveSession, if_pos (any_of_find? h), findSession]
  exact find_replaceSession db.sessions s2.session_id s s2 h rfl

/-- Saving a chain leaves the session collection alone. -/
theorem saveChain_sessions (db : DB) (c : Chain) :
    (saveChain db c).sessions = db.sessions := by
  rw [saveChain]; split <;> rfl

/-- Saving a chain leaves the chat collection alone. -/
theorem saveChain_chats (db : DB) (c : Chain) :
    (saveChain db c).chats = db.chats := by
  rw [saveChain]; split <;> rfl

/-- Saving a session leaves the chain collection alone. -/
theorem saveSession_chains (db : DB) (s : Session) :
    (saveSession db s).chains = db.chains := by
  rw [saveSession]; split <;> rfl

/-- Saving a session leaves the chat collection alone. -/
theorem saveSession_chats (db : DB) (s : Session) :
    (saveSession db s).chats = db.chats := by
  rw [saveSession]; split <;> rfl

/-- Saving a session keeps the number of stored sessions when the id was
already present. -/
theorem saveSession_length (db : DB) (s : Session)
    (h : db.sessions.any (fun t => t.session_id == s.session_id) = true) :
    (saveSession db s).sessions.length = db.sessions.length := by
  rw [saveSession, if_pos h]
  exact List.length_map _ _

/-- Sending a mail leaves the chain collection alone. -/
theorem sendMail_chains (db : DB) (e : String) (k : EmailKind) :
    (sendMail db e k).chains = db.chains := rfl

/-- The session loop of `complete_chain` never touches the chain
collection. -/
theorem completeSessionsLoop_chains (now : Int) :
    ∀ (L : List Session) (db : DB),
      (completeSessionsLoop now db L).1.chains = db.chains := by
  intro L
  induction L with
  | nil => intro db; rfl
  | cons s rest ih =>
    intro db
    simp only [completeSessionsLoop]
    cases h : s.complete_session now with
    | error e => rfl
    | ok s2 =>
      rw [ih (saveSession db s2), saveSession_chains]

/-- When every session handed to the loop is ACTIVE, no lifecycle check
fires and the loop ends without an exception. -/
theorem completeSessionsLoop_ok (now : Int) :
    ∀ (L : List Session) (db : DB),
      (∀ s ∈ L, s.status = SessionStatus.active) →
      (completeSessionsLoop now db L).2 = none := by
  intro L
  induction L with
  | nil => intro db _; rfl
  | cons s rest ih =>
    intro db hall
    have hs : s.status = SessionStatus.active := hall s (List.mem_cons_self s rest)
    have hok : s.complete_session now = Except.ok
        { s with status := SessionStatus.completed
                 completed_at := some now
                 updated_at := now } := by
      rw [Session.complete_session, if_neg (by simp [hs])]
    simp only [completeSessionsLoop, hok]
    exact ih _ (fun t ht => hall t (List.mem_cons_of_mem s ht))

/-- Loop invariant for `complete_chain`: after the loop, every stored
session was either untouched (and its id was not among the processed
ones) or is COMPLETED. -/
theorem completeSessionsLoop_invariant (now : Int) :
    ∀ (L : List Session) (db : DB),
      (∀ s ∈ L, s.status = SessionStatus.active) →
      ∀ entry ∈ (completeSessionsLoop now db L).1.sessions,
        (entry ∈ db.sessions ∧ entry.session_id ∉ L.map Session.session_id) ∨
        entry.status = SessionStatus.completed := by
  intro L
  induction L with
  | nil =>
    intro db _ entry hentry
    exact Or.inl ⟨hentry, by simp⟩
  | cons s rest ih =>
    intro db hall entry hentry
    have hs : s.status = SessionStatus.active := hall s (List.mem_cons_self s rest)
    have hok : s.complete_session now = Except.ok
        { s with status := SessionStatus.completed
                 completed_at := some now
                 updated_at := now } := by
      rw [Session.complete_session, if_neg (by simp [hs])]
    rw [completeSessionsLoop, hok] at hentry
    have step := ih (saveSession db
        { s with status := SessionStatus.completed
                 completed_at := some now
                 updated_at := now })
      (fun t ht => hall t (List.mem_cons_of_mem s ht)) entry hentry
    rcases step with ⟨hmem2, hnotin⟩ | hdone
    · rw [saveSession] at hmem2
      by_cases hany : db.sessions.any
          (fun t => t.session_id == s.session_id) = true
      · rw [if_pos hany] at hmem2
        simp only [List.mem_map] at hmem2
        obtain ⟨t, ht, hft⟩ := hmem2
        by_cases hid : t.session_id = s.session_id
        · rw [if_pos hid] at hft
          exact Or.inr (by rw [← hft])
        · rw [if_neg hid] at hft
          subst hft
          exact Or.inl ⟨ht, by
            simp only [List.map_cons, List.mem_cons]
            rintro (h | h)
            · exact hid h
            · exact hnotin h⟩
      · rw [if_neg hany] at hmem2
        rcases List.mem_append.mp hmem2 with hin | hone
        · refine Or.inl ⟨hin, ?_⟩
          have hneq : entry.session_id ≠ s.session_id := by
            intro he
            apply hany
            exact List.any_eq_true.mpr ⟨entry, hin, by simp [he]⟩
          simp only [List.map_cons, List.mem_cons]
          rintro (h | h)
          · exact hneq h
          · exact hnotin h
        · have : entry = { s with status := SessionStatus.completed
                                  completed_at := some now
                                  updated_at := now } := by
            simpa using hone
          exact Or.inr (by rw [this])
    · exact Or.inr hdone

/-- Test fixture: an already COMPLETED first session of the chain. -/
def sessC8a : Session :=
  { session_id := "S1", user_id := "EMP0001", chat_id := "CHAT1"
    status := SessionStatus.completed, scheduled_at := 0
    created_at := 0, updated_at := 0 }

/-- Test fixture: the still ACTIVE second session of the chain. -/
def sessC8b : Session :=
  { session_id := "S2", user_id := "EMP0001", chat_id := "CHAT2"
    status := SessionStatus.active, scheduled_at := 0
    created_at := 0, updated_at := 0 }

/-- Test fixture: an ACTIVE chain holding one completed and one active
session. -/
def chainC8 : Chain :=
  { chain_id := "CH1", employee_id := "EMP0001", session_ids := ["S1", "S2"]
    status := ChainStatus.active, created_at := 0, updated_at := 0 }

/-- Test fixture: store for the complete-chain counterexample. -/
def dbC8 : DB :=
  { employees := [empE, empH], chains := [chainC8], sessions := [sessC8a, sessC8b] }

/-- C8 counterexample.  `complete_chain` on an ACTIVE chain that
legitimately contains an already-completed session does not skip that
session: `complete_session` raises its invalid-state error, the call
fails, and the chain is not completed — the claim says such sessions
are skipped and the chain still completes without error. -/
theorem C8_complete_chain_errors_on_completed_session :
    chainC8.status = ChainStatus.active ∧
    (Chain.complete_chain dbC8 chainC8 5).2 =
      Except.error "Only active sessions can be completed" ∧
    (findChain (Chain.complete_chain dbC8 chainC8 5).1 "CH1").map Chain.status =
      some ChainStatus.active := by
  refine ⟨by decide, by decide, by decide⟩

/-- C8 amended.  `complete_chain` succeeds on an ACTIVE chain only when
every stored session referenced by `session_ids` is ACTIVE; it then
transitions all of them to COMPLETED and saves the chain as COMPLETED.
A referenced session in any other state makes the call raise the
invalid-state error of `complete_session` instead of being skipped. -/
theorem C8_complete_chain_completes_active_sessions
    (db : DB) (c : Chain) (now : Int)
    (hstatus : c.status = ChainStatus.active)
    (hchain : findChain db c.chain_id = some c)
    (hall : ∀ s ∈ sessionsIn db c.session_ids, s.status = SessionStatus.active) :
    (Chain.complete_chain db c now).2 = Except.ok () ∧
    (∀ s ∈ sessionsIn (Chain.complete_chain db c now).1 c.session_ids,
      s.status = SessionStatus.completed) ∧
    findChain (Chain.complete_chain db c now).1 c.chain_id = some
      { c with status := ChainStatus.completed
               completed_at := some now
               updated_at := now } := by
  cases hloop : completeSessionsLoop now db (sessionsIn db c.session_ids) with
  | mk db2 err =>
    have herr : err = none := by
      have h2 := completeSessionsLoop_ok now (sessionsIn db c.session_ids) db hall
      rw [hloop] at h2
      exact h2
    subst herr
    rw [Chain.complete_chain, if_neg (by simp [hstatus]), hloop]
    have hchains2 : db2.chains = db.chains := by
      have h3 := completeSessionsLoop_chains now (sessionsIn db c.session_ids) db
      rw [hloop] at h3
      exact h3
    refine ⟨rfl, ?_, ?_⟩
    · intro s hs
      rw [sessionsIn, saveChain_sessions, ← sessionsIn] at hs
      rw [sessionsIn, List.mem_filter] at hs
      obtain ⟨hmem, hcont⟩ := hs
      have hinv := completeSessionsLoop_invariant now (sessionsIn db c.session_ids)
        db hall s (by rw [hloop]; exact hmem)
      rcases hinv with ⟨hmemdb, hnotin⟩ | hdone
      · exfalso
        apply hnotin
        rw [List.mem_map]
        exact ⟨s, by rw [sessionsIn, List.mem_filter]; exact ⟨hmemdb, hcont⟩, rfl⟩
      · exact hdone
    · have hfind2 : findChain db2 c.chain_id = some c := by
        rw [findChain, hchains2, ← findChain]
        exact hchain
      exact findChain_saveChain db2 _ c hfind2

/-- Test fixture: an ACTIVE session for the complete-chain witness. -/
def sessC8w : Session :=
  { session_id := "T1", user_id := "EMP0001", chat_id := "CHAT3"
    status := SessionStatus.active, scheduled_at := 0
    created_at := 0, updated_at := 0 }

/-- Test fixture: an ACTIVE chain all of whose sessions are ACTIVE. -/
def chainC8w : Chain :=
  { chain_id := "CH2", employee_id := "EMP0001", session_ids := ["T1"]
    status := ChainStatus.active, created_at := 0, updated_at := 0 }

/-- Test fixture: store for the complete-chain witness. -/
def dbC8w : DB :=
  { employees := [empE, empH], chains := [chainC8w], sessions := [sessC8w] }

/-- Witness for the amended C8 at a concrete store. -/
theorem C8_complete_chain_completes_active_sessions_witness :
    chainC8w.status = ChainStatus.active ∧
    findChain dbC8w chainC8w.chain_id = some chainC8w ∧
    (∀ s ∈ sessionsIn dbC8w chainC8w.session_ids, s.status = SessionStatus.active) ∧
    ((Chain.complete_chain dbC8w chainC8w 7).2 = Except.ok () ∧
      (∀ s ∈ sessionsIn (Chain.complete_chain dbC8w chainC8w 7).1 chainC8w.session_ids,
        s.status = SessionStatus.completed) ∧
      findChain (Chain.complete_chain dbC8w chainC8w 7).1 chainC8w.chain_id = some
        { chainC8w with
            status := ChainStatus.completed
            completed_at := some 7
            updated_at := 7 }) :=
  ⟨by decide, by decide, by decide,
   C8_complete_chain_completes_active_sessions dbC8w chainC8w 7
     (by decide) (by decide) (by decide)⟩

/-- A lookup that succeeds on a prefix still succeeds after appending. -/
theorem find?_append_of_some {α : Type} {p : α → Bool} {l1 l2 : List α} {a : α}
    (h : l1.find? p = some a) : (l1 ++ l2).find? p = some a := by
  induction l1 with
  | nil => simp at h
  | cons x rest ih =>
    by_cases hx : p x
    · rw [List.find?_cons_of_pos _ hx] at h
      rw [List.cons_append, List.find?_cons_of_pos _ hx]
      exact h
    · rw [List.find?_cons_of_neg _ hx] at h
      rw [List.cons_append, List.find?_cons_of_neg _ hx]
      exact ih h

/-- Test fixture: a chat whose ten messages were all written by HR, none
by the employee. -/
def chatC9 : Chat :=
  { chat_id := "CHAT1", user_id := "EMP0001"
    messages := List.replicate 10 { sender_type := SenderType.hr, text := "hello", timestamp := 0 }
    created_at := 0, updated_at := 0 }

/-- Test fixture: the ACTIVE session bound to the HR-authored chat. -/
def sessC9 : Session :=
  { session_id := "S1", user_id := "EMP0001", chat_id := "CHAT1"
    status := SessionStatus.active, scheduled_at := 0
    created_at := 0, updated_at := 0 }

/-- Test fixture: the ACTIVE chain owning that session. -/
def chainC9 : Chain :=
  { chain_id := "CH1", employee_id := "EMP0001", session_ids := ["S1"]
    status := ChainStatus.active, created_at := 0, updated_at := 0 }

/-- Test fixture: store for the end-session counterexample. -/
def dbC9 : DB :=
  { employees := [empE, empH], chains := [chainC9], sessions := [sessC9]
    chats := [chatC9] }

/-- C9 counterexample.  The guard of `end_session` counts every non-bot
message, not employee-authored ones: on a chat holding ten HR messages
and zero employee messages (employee-authored count 0 < 10) the call is
accepted and ends the session — the claim says every call with an
employee-authored count below ten is rejected. -/
theorem C9_end_session_accepts_hr_padded_chat :
    (end_session dbC9 "CHAT1" empE (some "updated context") 0).2 = Except.ok () ∧
    employeeAuthoredCount chatC9 = 0 ∧
    employeeAuthoredCount chatC9 < 10 := by
  refine ⟨by decide, by decide, by decide⟩

/-- C9 amended.  With the chat, its ACTIVE session and its chain wired
up and the external end-session call succeeding, `end_session` accepts
exactly when the chat holds at least ten non-bot-authored messages
(employee or HR): below the threshold it rejects, changing nothing; at
or above it, it updates the chain context, completes the session, and
appends a fresh next-day-at-10:00 PENDING session to the chain. -/
theorem C9_end_session_threshold
    (db : DB) (chatId ctx : String) (employee : Employee) (chat : Chat)
    (session : Session) (chain : Chain) (now : Int)
    (hchat : findChat db chatId = some chat)
    (hown : chat.user_id = employee.employee_id)
    (hsess : db.sessions.find? (fun s => s.chat_id == chat.chat_id) = some session)
    (hsid : findSession db session.session_id = some session)
    (hact : session.status = SessionStatus.active)
    (hchain : db.chains.find? (fun c => c.session_ids.contains session.session_id) = some chain)
    (hcid : findChain db chain.chain_id = some chain) :
    ((end_session db chatId employee (some ctx) now).2 = Except.ok () ↔
      10 ≤ nonBotCount chat) ∧
    (nonBotCount chat < 10 →
      end_session db chatId employee (some ctx) now =
        (db, Except.error "Cannot end the chat as the employee has not sent more than 10 messages")) ∧
    (10 ≤ nonBotCount chat →
      findChain (end_session db chatId employee (some ctx) now).1 chain.chain_id = some
        { chain with
            context := ctx
            updated_at := now
            session_ids := chain.session_ids ++ [freshSessionId db] } ∧
      findSession (end_session db chatId employee (some ctx) now).1 session.session_id = some
        { session with
            status := SessionStatus.completed
            completed_at := some now
            updated_at := now } ∧
      (end_session db chatId employee (some ctx) now).1.sessions.getLast? = some
        { session_id := freshSessionId db
          user_id := employee.employee_id
          chat_id := freshChatId db
          status := SessionStatus.pending
          scheduled_at := nextDayAt10 now
          created_at := now
          updated_at := now }) := by
  have hok : session.complete_session now = Except.ok
      { session with
          status := SessionStatus.completed
          completed_at := some now
          updated_at := now } := by
    rw [Session.complete_session, if_neg (by simp [hact])]
  simp only [end_session, hchat, hsess, hchain, hok]
  rw [if_neg (by simp [hown])]
  by_cases hcount : nonBotCount chat < 10
  · rw [if_pos hcount]
    exact ⟨iff_of_false (fun h => Except.noConfusion h) (by omega),
      fun _ => rfl, fun hge => absurd hge (by omega)⟩
  · rw [if_neg hcount]
    have hge : 10 ≤ nonBotCount chat := by omega
    have h5 : findChain (saveSession (saveChain db (Chain.update_context chain ctx now))
        { session with
            status := SessionStatus.completed
            completed_at := some now
            updated_at := now }) chain.chain_id =
        some (Chain.update_context chain ctx now) := by
      rw [findChain, saveSession_chains, ← findChain]
      exact findChain_saveChain db (Chain.update_context chain ctx now) chain hcid
    have h0 : findSession (saveChain db (Chain.update_context chain ctx now))
        session.session_id = some session := by
      rw [findSession, saveChain_sessions, ← findSession]
      exact hsid
    have h3 : findSession (saveSession (saveChain db (Chain.update_context chain ctx now))
        { session with
            status := SessionStatus.completed
            completed_at := some now
            updated_at := now }) session.session_id =
        some { session with
            status := SessionStatus.completed
            completed_at := some now
            updated_at := now } :=
      findSession_saveSession _ _ session h0
    let s2X : Session := { session with
      status := SessionStatus.completed
      completed_at := some now
      updated_at := now }
    let db5X : DB := appendSession
      (appendChat
        (saveSession (saveChain db (Chain.update_context chain ctx now)) s2X)
        { chat_id := freshChatId db
          user_id := employee.employee_id
          created_at := now
          updated_at := now })
      { session_id := freshSessionId db
        user_id := employee.employee_id
        chat_id := freshChatId db
        status := SessionStatus.pending
        scheduled_at := nextDayAt10 now
        created_at := now
        updated_at := now }
    let chain3X : Chain :=
      (Chain.update_context chain ctx now).add_session (freshSessionId db) now
    refine ⟨iff_of_true rfl hge, fun hlt => absurd hlt hcount, fun _ => ⟨?_, ?_, ?_⟩⟩
    · exact findChain_saveChain db5X chain3X (Chain.update_context chain ctx now) h5
    · exact Eq.trans
        (congrArg (List.find? (fun t : Session => t.session_id == session.session_id))
          (saveChain_sessions db5X chain3X))
        (find?_append_of_some h3)
    · exact Eq.trans (congrArg List.getLast? (saveChain_sessions db5X chain3X))
        (List.getLast?_concat _)

/-- Test fixture: a chat with exactly ten employee-authored messages. -/
def chatC9w : Chat :=
  { chat_id := "CHAT2", user_id := "EMP0001"
    messages := List.replicate 10 { sender_type := SenderType.emp, text := "msg", timestamp := 0 }
    created_at := 0, updated_at := 0 }

/-- Test fixture: the ACTIVE session of the ten-message chat. -/
def sessC9w : Session :=
  { session_id := "S7", user_id := "EMP0001", chat_id := "CHAT2"
    status := SessionStatus.active, scheduled_at := 0
    created_at := 0, updated_at := 0 }

/-- Test fixture: the ACTIVE chain owning that session. -/
def chainC9w : Chain :=
  { chain_id := "CH7", employee_id := "EMP0001", session_ids := ["S7"]
    status := ChainStatus.active, created_at := 0, updated_at := 0 }

/-- Test fixture: store for the end-session witness. -/
def dbC9w : DB :=
  { employees := [empE, empH], chains := [chainC9w], sessions := [sessC9w]
    chats := [chatC9w] }

/-- Witness for the amended C9 at a concrete store with exactly ten
employee messages. -/
theorem C9_end_session_threshold_witness :
    findChat dbC9w "CHAT2" = some chatC9w ∧
    chatC9w.user_id = empE.employee_id ∧
    dbC9w.sessions.find? (fun s => s.chat_id == chatC9w.chat_id) = some sessC9w ∧
    findSession dbC9w sessC9w.session_id = some sessC9w ∧
    sessC9w.status = SessionStatus.active ∧
    dbC9w.chains.find? (fun c => c.session_ids.contains sessC9w.session_id) = some chainC9w ∧
    findChain dbC9w chainC9w.chain_id = some chainC9w ∧
    (((end_session dbC9w "CHAT2" empE (some "ctx2") 3).2 = Except.ok () ↔
        10 ≤ nonBotCount chatC9w) ∧
      (nonBotCount chatC9w < 10 →
        end_session dbC9w "CHAT2" empE (some "ctx2") 3 =
          (dbC9w, Except.error "Cannot end the chat as the employee has not sent more than 10 messages")) ∧
      (10 ≤ nonBotCount chatC9w →
        findChain (end_session dbC9w "CHAT2" empE (some "ctx2") 3).1 chainC9w.chain_id = some
          { chainC9w with
              context := "ctx2"
              updated_at := 3
              session_ids := chainC9w.session_ids ++ [freshSessionId dbC9w] } ∧
        findSession (end_session dbC9w "CHAT2" empE (some "ctx2") 3).1 sessC9w.session_id = some
          { sessC9w with
              status := SessionStatus.completed
              completed_at := some 3
              updated_at := 3 } ∧
        (end_session dbC9w "CHAT2" empE (some "ctx2") 3).1.sessions.getLast? = some
          { session_id := freshSessionId dbC9w
            user_id := empE.employee_id
            chat_id := freshChatId dbC9w
            status := SessionStatus.pending
            scheduled_at := nextDayAt10 3
            created_at := 3
            updated_at := 3 })) :=
  ⟨by decide, by decide, by decide, by decide, by decide, by decide, by decide,
   C9_end_session_threshold dbC9w "CHAT2" "ctx2" empE chatC9w sessC9w chainC9w 3
     (by decide) (by decide) (by decide) (by decide) (by decide) (by decide) (by decide)⟩

/-- The gap scan only ever returns times clamped to `earliest`. -/
theorem findGap_ge (e d : Int) :
    ∀ (l : List Meet) (t : Int), findGap e d l = some t → e ≤ t := by
  intro l
  induction l with
  | nil => intro t h; simp [findGap] at h
  | cons a tail ih =>
    intro t h
    cases tail with
    | nil => simp [findGap] at h
    | cons b rest =>
      rw [findGap] at h
      by_cases hc : meetEnd a ≥ e ∧ b.scheduled_at - meetEnd a ≥ d
      · rw [if_pos hc] at h
        injection h with h2
        rw [← h2]
        exact le_max_right _ _
      · rw [if_neg hc] at h
        exact ih t h

/-- The recursive gap scan of the source equals a `find?` over adjacent
pairs. -/
theorem findGap_eq_find? (e d : Int) :
    ∀ l : List Meet,
      findGap e d l = ((gapPairs l).find?
        (fun p => meetEnd p.1 ≥ e ∧ p.2.scheduled_at - meetEnd p.1 ≥ d)).map
        (fun p => max (meetEnd p.1) e) := by
  intro l
  induction l with
  | nil => rfl
  | cons a tail ih =>
    cases tail with
    | nil => rfl
    | cons b rest =>
      rw [findGap]
      rw [show gapPairs (a :: b :: rest) = (a, b) :: gapPairs (b :: rest) from rfl]
      by_cases h : meetEnd a ≥ e ∧ b.scheduled_at - meetEnd a ≥ d
      · rw [if_pos h, List.find?_cons_of_pos _ (by simpa using h)]
        rfl
      · rw [if_neg h, List.find?_cons_of_neg _ (by simpa using h)]
        exact ih

/-- The gap-scan algorithm never proposes a time before `earliest`. -/
theorem assignTimeCalendarBody_ge :
    ∀ (ms : List Meet) (d now : Int), now ≤ assignTimeCalendarBody ms d now := by
  intro ms d now
  simp only [assignTimeCalendarBody]
  split
  · exact le_refl now
  · split
    · exact le_refl now
    · split
      · exact le_refl now
      · split
        · next t heq => exact findGap_ge now d _ t heq
        · exact le_max_right _ _

/-- The gap-scan algorithm coincides with the amended reading of the
claim (the `find?`-over-pairs formulation with the
end-at-or-after-earliest side condition). -/
theorem assignTimeCalendarBody_eq_amended :
    ∀ (ms : List Meet) (d now : Int),
      assignTimeCalendarBody ms d now = slotFinderAmended ms d now := by
  intro ms d now
  simp only [assignTimeCalendarBody, slotFinderAmended]
  by_cases he : ms.isEmpty
  · rw [if_pos he, if_pos he]
  · rw [if_neg he, if_neg he]
    cases hs : sortMeets ms with
    | nil => rfl
    | cons first rest =>
      simp only []
      by_cases hf : first.scheduled_at - now ≥ d
      · rw [if_pos hf, if_pos hf]
      · rw [if_neg hf, if_neg hf]
        rw [findGap_eq_find?]
        cases hfind : (gapPairs (first :: rest)).find?
            (fun p => meetEnd p.1 ≥ now ∧ p.2.scheduled_at - meetEnd p.1 ≥ d) with
        | none => rfl
        | some p => rfl

/-- Test fixture: a meeting from 10:00 to 11:00 (minutes of day). -/
def meetA : Meet :=
  { meet_id := "M1", user_id := "EMP0009", with_user_id := "EMP0001"
    scheduled_at := 600, duration_minutes := 60 }

/-- Test fixture: a meeting from 11:15 to 12:00. -/
def meetB : Meet :=
  { meet_id := "M2", user_id := "EMP0009", with_user_id := "EMP0001"
    scheduled_at := 675, duration_minutes := 45 }

/-- Test fixture: a meeting from 11:00 to 12:00, back-to-back with
`meetA`. -/
def meetC : Meet :=
  { meet_id := "M3", user_id := "EMP0009", with_user_id := "EMP0001"
    scheduled_at := 660, duration_minutes := 60 }

/-- Test fixture: a meeting from 0:00 to 1:00, entirely in the past for
an earliest time of 2:00. -/
def meetPastA : Meet :=
  { meet_id := "M4", user_id := "EMP0009", with_user_id := "EMP0001"
    scheduled_at := 0, duration_minutes := 60 }

/-- Test fixture: a meeting from 23:00 to 24:00. -/
def meetPastB : Meet :=
  { meet_id := "M5", user_id := "EMP0009", with_user_id := "EMP0001"
    scheduled_at := 1380, duration_minutes := 60 }

/-- C6 counterexample.  The claim fails on the code in two ways.
First, `assignTimeCalendar` never returns at all: its first statement
raises AttributeError under the module's `from datetime import
datetime`, so even in the claim's degenerate empty-calendar case —
where the claim predicts the current time (here 120) is returned — the
call errors instead.  Second, even the dead gap scan below the crash
disagrees with the claim's gap rule: with meetings 0:00-1:00 and
23:00-24:00, duration 30 and earliest 2:00 (minute 120), the
inter-meeting gap is 22 hours, so the claim picks its start clamped to
earliest, 2:00 — but the scan skips any adjacent pair whose earlier
meeting ends before `earliest` and so yields 24:00 (minute 1440), the
end of the last meeting. -/
theorem C6_slot_finder_never_returns :
    assignTimeCalendar [] 30 =
      Except.error "AttributeError: type object datetime.datetime has no attribute datetime" ∧
    slotFinderClaim [] 30 120 = 120 ∧
    assignTimeCalendarBody [meetPastA, meetPastB] 30 120 = 1440 ∧
    slotFinderClaim [meetPastA, meetPastB] 30 120 = 120 ∧
    (1440 : Int) ≠ 120 := by
  refine ⟨by decide, by decide, by decide, by decide, by decide⟩

/-- C6 amended.  Every call of `assignTimeCalendar` raises the
AttributeError of its shadowed clock read and returns no time.  Its
remaining body — dead code in chat.py, but the very algorithm that runs
inlined in routes/llm.py — given the `now` the clock read was meant to
produce: returns `now` on an empty calendar and never a time before
`now`; equals the claim's greedy description amended with the side
condition that a qualifying inter-meeting gap must open at or after
`now`; and reproduces the three concrete scenarios of the spec (gap
before the first meeting, a qualifying 15-minute inter-meeting gap at
11:00, and back-to-back meetings pushing to the end of the last
one). -/
theorem C6_slot_finder_crash_and_body_characterization :
    (∀ (ms : List Meet) (d : Int), assignTimeCalendar ms d =
      Except.error "AttributeError: type object datetime.datetime has no attribute datetime") ∧
    (∀ d now : Int, assignTimeCalendarBody [] d now = now) ∧
    (∀ (ms : List Meet) (d now : Int), now ≤ assignTimeCalendarBody ms d now) ∧
    (∀ (ms : List Meet) (d now : Int),
      assignTimeCalendarBody ms d now = slotFinderAmended ms d now) ∧
    assignTimeCalendarBody [meetA] 30 540 = 540 ∧
    assignTimeCalendarBody [meetA, meetB] 15 590 = 660 ∧
    assignTimeCalendarBody [meetA, meetC] 30 590 = 720 :=
  ⟨fun _ _ => rfl, fun _ _ => rfl, assignTimeCalendarBody_ge,
   assignTimeCalendarBody_eq_amended, by decide, by decide, by decide⟩

/-- Stable insertion grows the list by one. -/
theorem length_insertMeet :
    ∀ (l : List Meet) (m : Meet), (insertMeet m l).length = l.length + 1 := by
  intro l
  induction l with
  | nil => intro m; rfl
  | cons x xs ih =>
    intro m
    rw [insertMeet]
    by_cases h : x.scheduled_at ≤ m.scheduled_at
    · rw [if_pos h]
      simp [ih]
    · rw [if_neg h]
      rfl

/-- Sorting preserves length (via the foldl accumulator). -/
theorem length_sortMeets_aux :
    ∀ (l acc : List Meet),
      (l.foldl (fun a m => insertMeet m a) acc).length = acc.length + l.length := by
  intro l
  induction l with
  | nil => intro acc; simp
  | cons x xs ih =>
    intro acc
    rw [List.foldl_cons, ih (insertMeet x acc), length_insertMeet, List.length_cons]
    omega

/-- Sorting preserves length. -/
theorem length_sortMeets (ms : List Meet) : (sortMeets ms).length = ms.length := by
  rw [sortMeets, length_sortMeets_aux]
  simp

/-- C7 amended.  The chat-escalation path's slot search is the same
greedy gap algorithm as chat.py states below its crash
(`assignTimeCalendarBody`), run from `earliest = now`:
there is no jittered 2-to-3-hour initial offset and no linear conflict
probe in routes/llm.py. -/
theorem C7_chat_escalation_uses_greedy_gap :
    ∀ (ms : List Meet) (dur now : Int),
      escalateChatSlot ms dur now = assignTimeCalendarBody ms dur now := by
  intro ms dur now
  simp only [escalateChatSlot, assignTimeCalendarBody]
  cases hs : sortMeets ms with
  | nil =>
    have hms : ms = [] := by
      have hlen := length_sortMeets ms
      rw [hs] at hlen
      exact List.length_eq_zero.mp hlen.symm
    simp [hms]
  | cons f rest =>
    have hne : ms.isEmpty = false := by
      cases ms with
      | nil => exact absurd hs (by simp [sortMeets])
      | cons _ _ => rfl
    rw [if_neg (by simp [hne])]
    simp only []
    by_cases hf : f.scheduled_at - now ≥ dur
    · rw [if_pos hf, if_pos hf]
    · rw [if_neg hf, if_neg hf]

/-- Test fixture: a session reachable by chat id for the chat-escalation
route. -/
def sessC7 : Session :=
  { session_id := "S1", user_id := "EMP0001", chat_id := "CHAT1"
    status := SessionStatus.active, scheduled_at := 0
    created_at := 0, updated_at := 0 }

/-- Test fixture: store for the chat-escalation route, with an empty
calendar for the manager. -/
def dbC7 : DB :=
  { employees := [empE, empH], sessions := [sessC7] }

/-- C7 counterexample.  On an empty manager calendar at time 1000, the
chat-escalation route schedules the meeting at 1000 — exactly `now` —
while the spec's jittered probe (modelled as `specJitterProbe`) starts
at `now` plus at least two hours: even at the minimum jitter of 120
minutes it proposes 1120, never 1000. -/
theorem C7_chat_escalation_has_no_jitter_probe :
    (escalate_chat dbC7 "CHAT1" none 1000).1.meets.map Meet.scheduled_at = [1000] ∧
    (escalate_chat dbC7 "CHAT1" none 1000).1.meets.map Meet.duration_minutes = [480] ∧
    specJitterProbe [] 480 1000 120 = 1120 ∧
    (1120 : Int) ≠ 1000 := by
  refine ⟨by decide, by decide, by decide, by decide⟩

end Backend
